import Mathlib

/-!
Verification of the mirrord console logger (`mirrord/console/src/logger.rs`).

The development shallowly embeds the forwarding pipeline: the `ConsoleLogger`
sink adapter (`enabled`, `log`, `flush`), the hand-off queue created by
`sync_channel(10000)`, the background `logger_task` delivery loop, the
`send_hello` handshake and `init_logger` initialization.  Effects (queue
insertions, connection writes, stderr diagnostics, the global logger slot of
the `log` crate) are made explicit as data threaded through the definitions.
-/

namespace MirrordConsole

/-- Severity levels of the `log` crate (`log::Level`):
Error < Warn < Info < Debug < Trace. -/
inductive Level where
  | Error
  | Warn
  | Info
  | Debug
  | Trace
deriving DecidableEq

/-- Maximum-level filter of the `log` crate (`log::LevelFilter`);
`init_logger` sets it to `Trace` ("capture everything"). -/
inductive LevelFilter where
  | Off
  | Error
  | Warn
  | Info
  | Debug
  | Trace
deriving DecidableEq

/-- Metadata of a wire record. Modelled from the spec: `protocol.rs` is not in
the sources; its `Metadata` field set (severity level and origin target) is
fixed by the construction site in `ConsoleLogger::log` (logger.rs lines
33-36). -/
structure Metadata where
  level : Level
  target : String
deriving DecidableEq

/-- A wire record. Modelled from the spec: `protocol.rs` is not in the
sources; the field set (metadata, message, optional module path, file and
line) is fixed by the construction site in `ConsoleLogger::log` (logger.rs
lines 32-41). -/
structure Record where
  metadata : Metadata
  message : String
  module_path : Option String
  file : Option String
  line : Option Nat
deriving DecidableEq

/-- Snapshot of the host process sent with the handshake. Modelled from the
spec: `protocol.rs` is not in the sources; the field set is fixed by the
construction site in `send_hello` (logger.rs lines 56-63). -/
structure ProcessInfo where
  args : List String
  env : List String
  cwd : Option String
  id : Nat
deriving DecidableEq

/-- The session-descriptor ("Hello") message, wrapping a `ProcessInfo`.
Modelled from the spec: `protocol.rs` is not in the sources; the shape is
fixed by the construction site in `send_hello` (logger.rs lines 55-64). -/
structure Hello where
  process_info : ProcessInfo
deriving DecidableEq

/-- An opaque transport-layer (`tungstenite`) error, identified by its
message. -/
structure WsError where
  msg : String
deriving DecidableEq

/-- Error type of the crate. Modelled from the spec: `error.rs` is not in the
sources.  `ConnectError` carries the underlying transport
(`tungstenite`) error — logger.rs line 87 wraps the `connect` failure in
`ConsoleError::ConnectError` explicitly, and the spec says a failing
handshake write surfaces "with the same error kind".  `SetLoggerError`
corresponds to the `log` crate's set-logger failure. -/
inductive ConsoleError where
  | ConnectError (e : WsError)
  | SetLoggerError
deriving DecidableEq

/-- Metadata of a candidate log event, as handed to the sink adapter by the
`log` facade (`log::Metadata`): severity level and origin target. -/
structure LogMetadata where
  level : Level
  target : String
deriving DecidableEq

/-- A log event as handed to the sink adapter by the `log` facade
(`log::Record`): metadata, formatted message (`args`), and optional source
location. -/
structure LogRecord where
  metadata : LogMetadata
  args : String
  module_path : Option String
  file : Option String
  line : Option Nat
deriving DecidableEq

/-- Rust's `str::contains(pat)` for a string pattern: substring search. -/
def strContains (hay needle : String) : Bool :=
  decide (needle.data <:+: hay.data)

namespace ConsoleLogger

/-- The sink adapter's filter (logger.rs lines 25-27):
`metadata.target().contains("mirrord")`. -/
def enabled (metadata : LogMetadata) : Bool :=
  strContains metadata.target ("mirrord")

end ConsoleLogger

/-- The conversion performed inside `ConsoleLogger::log` (logger.rs lines
32-41): a `protocol::Record` built from the facade's record, copying level,
target, message and the optional source location. -/
def recordOf (r : LogRecord) : Record :=
  { metadata := { level := r.metadata.level, target := r.metadata.target }
    message := r.args
    module_path := r.module_path
    file := r.file
    line := r.line }

/-- Observable effects of one `ConsoleLogger::log` call: how many queue
insertions were attempted, which record (if any) was placed on the queue, and
how many diagnostic lines were printed to stderr.  The call itself returns
`()` in the source — there is no error channel to the caller, which the
result type reflects by carrying no error component. -/
structure LogEffect where
  sendAttempts : Nat
  enqueued : Option Record
  diagLines : Nat
deriving DecidableEq

namespace ConsoleLogger

/-- The sink adapter's `log` (logger.rs lines 30-48).  `channelOpen` is the
state of the hand-off queue's receiving side: `sender.send` succeeds iff the
receiver is still alive.  If the filter rejects the record nothing happens;
otherwise exactly one send is attempted, and a failed send is reported to
stderr (`eprintln`) and swallowed. -/
def log (channelOpen : Bool) (record : LogRecord) : LogEffect :=
  if enabled record.metadata then
    if channelOpen then
      { sendAttempts := 1, enqueued := some (recordOf record), diagLines := 0 }
    else
      { sendAttempts := 1, enqueued := none, diagLines := 1 }
  else
    { sendAttempts := 0, enqueued := none, diagLines := 0 }

/-- The sink adapter's `flush` (logger.rs line 50): a no-op. -/
def flush : Unit := ()

end ConsoleLogger

/-- Why the delivery loop in `logger_task` stopped: the queue's sending side
was dropped and the buffer ran dry (`rx.recv()` returned `Err`), or a
connection write failed. -/
inductive TaskExit where
  | queueClosed
  | writeError
deriving DecidableEq

/-- Observable outcome of one run of `logger_task`: the records successfully
written to the connection in order, the records whose write was attempted,
the number of stderr diagnostics, and why the loop exited. -/
structure TaskResult where
  written : List Record
  attempted : List Record
  diagErrors : Nat
  exit : TaskExit
deriving DecidableEq

/-- The delivery loop (logger.rs lines 72-80).  The queue is abstracted as
the list of records that producers ever place on it, in enqueue order; after
the list is exhausted `rx.recv()` reports the channel closed (an `mpsc`
receiver yields all buffered items before reporting disconnection).  `wr n`
tells whether the n-th `write_message` call on this run succeeds.  On a
failed write the loop prints one diagnostic to stderr and breaks; on a closed
queue it just ends. -/
def logger_task (wr : Nat → Bool) : List Record → TaskResult
  | [] => { written := [], attempted := [], diagErrors := 0, exit := .queueClosed }
  | r :: rest =>
    if wr 0 then
      let t := logger_task (fun i => wr (i + 1)) rest
      { written := r :: t.written, attempted := r :: t.attempted
        diagErrors := t.diagErrors, exit := t.exit }
    else
      { written := [], attempted := [r], diagErrors := 1, exit := .writeError }

/-- State of a bounded `std::sync::mpsc::sync_channel` queue: its fixed
capacity and the buffered records, oldest first. -/
structure SyncChannel where
  cap : Nat
  buf : List Record
deriving DecidableEq

/-- The channel as created by `sync_channel(bound)`: empty buffer, fixed
capacity. -/
def sync_channel (bound : Nat) : SyncChannel :=
  { cap := bound, buf := [] }

/-- One atomic interaction with the bounded channel.  `send` is only enabled
while the buffer is below capacity — a sender on a full channel blocks (it
neither drops the record nor errors), which the relation renders as the
absence of an enabled send step.  `recv` removes the oldest record. -/
inductive ChanStep : SyncChannel → SyncChannel → Prop
  | send (q : SyncChannel) (r : Record) (h : q.buf.length < q.cap) :
      ChanStep q { q with buf := q.buf ++ [r] }
  | recv (q : SyncChannel) (r : Record) (rest : List Record)
      (h : q.buf = r :: rest) :
      ChanStep q { q with buf := rest }

/-- States of the channel reachable from a given start state. -/
def ChanReachable (start q : SyncChannel) : Prop :=
  Relation.ReflTransGen ChanStep start q

/-- A message frame written on the websocket connection: either the one-off
session descriptor or a forwarded record. -/
inductive Msg where
  | hello (h : Hello)
  | record (r : Record)
deriving DecidableEq

/-- Whether a wire message is the session descriptor. -/
def Msg.isHello : Msg → Bool
  | .hello _ => true
  | .record _ => false

/-- Snapshot of the host process environment read by `send_hello`
(logger.rs lines 56-63): `std::env::args()`, `std::env::vars()` as key/value
pairs, `std::env::current_dir()` and `std::process::id()`. -/
structure ProcEnv where
  args : List String
  vars : List (String × String)
  cwd : Option String
  pid : Nat
deriving DecidableEq

/-- The `Hello` value built by `send_hello` (logger.rs lines 55-64):
environment variables are formatted as "KEY=VALUE" strings. -/
def helloOf (p : ProcEnv) : Hello :=
  { process_info :=
      { args := p.args
        env := p.vars.map (fun kv => kv.1 ++ "=" ++ kv.2)
        cwd := p.cwd
        id := p.pid } }

/-- The handshake write (logger.rs lines 54-68): serializes the `Hello` and
writes it as one frame; a transport failure of the write propagates as a
`ConsoleError` (per the spec, with the connect-error kind).  On success it
returns the message that is now on the wire. -/
def send_hello (p : ProcEnv) (writeResult : Option WsError) :
    Except ConsoleError Hello :=
  match writeResult with
  | some e => .error (.ConnectError e)
  | none => .ok (helloOf p)

/-- The URL `init_logger` connects to (logger.rs line 87):
`ws://{address}/ws`. -/
def wsUrl (address : String) : String :=
  "ws://" ++ address ++ "/ws"

/-- The bound passed to `sync_channel` by `init_logger` (logger.rs
line 85). -/
def init_channel_bound : Nat := 10000

/-- The process-wide state owned by the `log` crate: which logger (if any)
is installed — identified by a token so that overwriting is observable — and
the global maximum level filter (initially `Off`). -/
structure LogGlobalState where
  logger : Option Nat
  maxLevel : LevelFilter
deriving DecidableEq

/-- The `log` crate's `set_boxed_logger`: installs the given logger unless
one is already installed, in which case it fails with the set-logger error
and leaves the installed logger untouched. -/
def set_boxed_logger (st : LogGlobalState) (newLogger : Nat) :
    Except ConsoleError LogGlobalState :=
  match st.logger with
  | some _ => .error .SetLoggerError
  | none => .ok { st with logger := some newLogger }

/-- Externally determined outcomes of one `init_logger` run: whether
`connect` to a given URL fails (and with which transport error), whether the
handshake write fails, the process snapshot, the records producers will
place on the hand-off queue over the whole run, and the per-write outcomes
inside the delivery loop. -/
structure InitEnv where
  connectResult : String → Option WsError
  helloWriteResult : Option WsError
  proc : ProcEnv
  queue : List Record
  wr : Nat → Bool

/-- Outcome of one `init_logger` run: the value returned to the caller, the
full trace of message frames written on the connection (by `send_hello` and
then by the spawned delivery loop), the `log` crate's global state
afterwards, and the bound of the created hand-off queue. -/
structure RunResult where
  result : Except ConsoleError Unit
  trace : List Msg
  state : LogGlobalState
  queueBound : Nat

/-- Initialization (logger.rs lines 84-96).  Creates the bounded hand-off
queue, connects to `ws://{address}/ws` (wrapping failures in
`ConnectError`), sends the hello synchronously, spawns `logger_task` on the
connection and the queue's receiving end, then installs the `ConsoleLogger`
as the process-wide logger and on success raises the maximum level to
`Trace`.  Note the order: the hello is written, and the loop spawned, before
`set_boxed_logger` runs, so the trace is unchanged when installation
fails. -/
def init_logger (env : InitEnv) (st : LogGlobalState) (newLogger : Nat)
    (address : String) : RunResult :=
  match env.connectResult (wsUrl address) with
  | some e =>
    { result := .error (.ConnectError e), trace := [], state := st
      queueBound := init_channel_bound }
  | none =>
    match send_hello env.proc env.helloWriteResult with
    | .error e =>
      { result := .error e, trace := [], state := st
        queueBound := init_channel_bound }
    | .ok hello =>
      let t := logger_task env.wr env.queue
      let trace := Msg.hello hello :: t.written.map Msg.record
      match set_boxed_logger st newLogger with
      | .error e =>
        { result := .error e, trace := trace, state := st
          queueBound := init_channel_bound }
      | .ok st' =>
        { result := .ok (), trace := trace
          state := { st' with maxLevel := .Trace }
          queueBound := init_channel_bound }

/-! Model of `serde_json` serialization, used by the `unwrap` sites in
`send_hello` (line 65) and `logger_task` (line 74).  A `Serialize`
implementation flattens a value into serde's data model, where map keys are
arbitrary values; `serde_json::to_vec` then renders that tree as JSON text
and fails precisely when a map key is not a string (JSON object keys must be
strings).  This is the only failure mode relevant here: writing to a `Vec`
cannot fail, and the derived `Serialize` implementations return no custom
errors. -/

/-- A value in serde's data model: null, string, integer, sequence, or map
with arbitrary keys. -/
inductive SerValue where
  | nul
  | str (s : String)
  | num (n : Int)
  | arr (items : List SerValue)
  | obj (fields : List (SerValue × SerValue))

/-- Naive JSON quoting of a string (escaping elided: no claim concerns the
exact bytes, only whether rendering succeeds). -/
def jsonQuote (s : String) : String :=
  "\"" ++ s ++ "\""

/-- Comma-join of rendered fragments. -/
def joinComma : List String → String
  | [] => ""
  | [x] => x
  | x :: xs => x ++ "," ++ joinComma xs

mutual

/-- Render a serde value as JSON text, `serde_json::to_vec` style: fails iff
some map key in the tree is not a string. -/
def SerValue.toJson : SerValue → Except String String
  | .nul => .ok ("null")
  | .str s => .ok (jsonQuote s)
  | .num n => .ok (toString n)
  | .arr items => do
    let rs ← SerValue.listToJson items
    .ok ("[" ++ joinComma rs ++ "]")
  | .obj fields => do
    let rs ← SerValue.fieldsToJson fields
    .ok ("\x7b" ++ joinComma rs ++ "\x7d")

/-- Render each element of a sequence. -/
def SerValue.listToJson : List SerValue → Except String (List String)
  | [] => .ok []
  | v :: vs => do
    let r ← SerValue.toJson v
    let rs ← SerValue.listToJson vs
    .ok (r :: rs)

/-- Render each key/value pair of a map; a non-string key is the error
case. -/
def SerValue.fieldsToJson : List (SerValue × SerValue) → Except String (List String)
  | [] => .ok []
  | (SerValue.str k, v) :: fs => do
    let rv ← SerValue.toJson v
    let rs ← SerValue.fieldsToJson fs
    .ok ((jsonQuote k ++ ":" ++ rv) :: rs)
  | (_, _) :: _ => .error ("key must be a string")

end

/-- Serde encoding of `log::Level` (a plain string, per the `log` crate's
serde support; any of its infallible encodings would do). -/
def Level.serialize : Level → SerValue
  | .Error => .str ("ERROR")
  | .Warn => .str ("WARN")
  | .Info => .str ("INFO")
  | .Debug => .str ("DEBUG")
  | .Trace => .str ("TRACE")

/-- Serde encoding of an optional string field. -/
def serializeOptStr : Option String → SerValue
  | none => .nul
  | some s => .str s

/-- Derived `Serialize` of `protocol::Metadata`: a map with the field names
as string keys.  Modelled from the spec (`protocol.rs` is not in the
sources). -/
def Metadata.serialize (m : Metadata) : SerValue :=
  .obj [(.str ("level"), m.level.serialize), (.str ("target"), .str m.target)]

/-- Derived `Serialize` of `protocol::Record`.  Modelled from the spec
(`protocol.rs` is not in the sources). -/
def Record.serialize (r : Record) : SerValue :=
  .obj [(.str ("metadata"), r.metadata.serialize),
        (.str ("message"), .str r.message),
        (.str ("module_path"), serializeOptStr r.module_path),
        (.str ("file"), serializeOptStr r.file),
        (.str ("line"), match r.line with | none => .nul | some n => .num n)]

/-- Derived `Serialize` of `protocol::ProcessInfo`.  Modelled from the spec
(`protocol.rs` is not in the sources). -/
def ProcessInfo.serialize (p : ProcessInfo) : SerValue :=
  .obj [(.str ("args"), .arr (p.args.map SerValue.str)),
        (.str ("env"), .arr (p.env.map SerValue.str)),
        (.str ("cwd"), serializeOptStr p.cwd),
        (.str ("id"), .num p.id)]

/-- Derived `Serialize` of `protocol::Hello`.  Modelled from the spec
(`protocol.rs` is not in the sources). -/
def Hello.serialize (h : Hello) : SerValue :=
  .obj [(.str ("process_info"), h.process_info.serialize)]

/-! Concrete sample values used to instantiate the theorems below. -/

/-- A sample wire record with a mirrord origin. -/
def sampleRecord (n : Nat) : Record :=
  { metadata := { level := .Info, target := "mirrord::layer" }
    message := "message " ++ toString n
    module_path := none
    file := none
    line := some n }

/-- A sample facade record with a mirrord origin. -/
def sampleLogRecord : LogRecord :=
  { metadata := { level := .Info, target := "mirrord::layer" }
    args := "hello from the layer"
    module_path := some ("mirrord_layer::socket")
    file := some ("socket.rs")
    line := some 3 }

/-- A sample facade record from a foreign origin (the spec's scenario uses
origin "other_lib::x"). -/
def otherLogRecord : LogRecord :=
  { metadata := { level := .Info, target := "other_lib::x" }
    args := "not ours"
    module_path := none
    file := none
    line := none }

/-- A sample process snapshot. -/
def sampleProc : ProcEnv :=
  { args := ["app", "--flag"]
    vars := [("HOME", "/root")]
    cwd := some ("/root")
    pid := 7 }

/-- A run environment in which everything succeeds. -/
def sampleEnv : InitEnv :=
  { connectResult := fun _ => none
    helloWriteResult := none
    proc := sampleProc
    queue := [sampleRecord 1, sampleRecord 2]
    wr := fun _ => true }

/-- A run environment in which `connect` fails. -/
def refusedEnv : InitEnv :=
  { connectResult := fun _ => some { msg := "connection refused" }
    helloWriteResult := none
    proc := sampleProc
    queue := []
    wr := fun _ => true }

/-- A run environment in which `connect` succeeds but the handshake write
fails. -/
def helloFailEnv : InitEnv :=
  { connectResult := fun _ => none
    helloWriteResult := some { msg := "broken pipe" }
    proc := sampleProc
    queue := []
    wr := fun _ => true }

/-- A hand-off queue at capacity. -/
def fullChan : SyncChannel :=
  { cap := 2, buf := [sampleRecord 1, sampleRecord 2] }

/-! Helper lemmas. -/

/-- Reduction of `Except` bind on a success value. -/
theorem except_ok_bind {α β ε : Type} (a : α) (f : α → Except ε β) :
    (Except.ok a : Except ε α) >>= f = f a := rfl

/-- If every write succeeds, the delivery loop forwards the whole queue, in
order, attempts nothing twice, prints no diagnostic and exits on queue
closure. -/
theorem logger_task_all_ok (wr : Nat → Bool) (q : List Record)
    (h : ∀ i, wr i = true) :
    logger_task wr q
      = { written := q, attempted := q, diagErrors := 0, exit := .queueClosed } := by
  induction q generalizing wr with
  | nil => rfl
  | cons r rest ih =>
    simp [logger_task, h 0, ih (fun i => wr (i + 1)) (fun i => h (i + 1))]

/-! Claim theorems. -/

/-- C1: the sink adapter's `enabled` operation returns true if and only if
the metadata's origin target contains the fixed marker string "mirrord" as a
substring; for every target without that substring (the empty string
included) it returns false. -/
theorem C1_enabled_iff_marker (m : LogMetadata) :
    ConsoleLogger.enabled m = true ↔
      ∃ pre post : String, m.target = pre ++ "mirrord" ++ post := by
  unfold ConsoleLogger.enabled strContains
  rw [decide_eq_true_iff]
  constructor
  · rintro ⟨s, t, h⟩
    refine ⟨⟨s⟩, ⟨t⟩, String.ext ?_⟩
    simp only [String.data_append]
    simpa [List.append_assoc] using h.symm
  · rintro ⟨pre, post, h⟩
    refine ⟨pre.data, post.data, ?_⟩
    have hd := congrArg String.data h
    simp only [String.data_append] at hd
    simp [List.append_assoc, hd]

/-- Instantiation of C1 on concrete origin targets. -/
theorem C1_enabled_iff_marker_witness :
    ConsoleLogger.enabled { level := .Info, target := "mirrord::layer" } = true :=
  (C1_enabled_iff_marker { level := .Info, target := "mirrord::layer" }).mpr
    ⟨"", "::layer", rfl⟩

/-- C3: the delivery loop forwards records in exactly the enqueue order:
what it writes is always a prefix of the enqueued sequence (no reordering,
no coalescing, no duplication), and when every write succeeds it is the
whole sequence. -/
theorem C3_fifo_delivery (wr : Nat → Bool) (q : List Record) :
    (∃ rest, (logger_task wr q).written ++ rest = q) ∧
      ((∀ i, wr i = true) → (logger_task wr q).written = q) := by
  constructor
  · induction q generalizing wr with
    | nil => exact ⟨[], rfl⟩
    | cons r rest ih =>
      by_cases h : wr 0 = true
      · obtain ⟨t, ht⟩ := ih (fun i => wr (i + 1))
        exact ⟨t, by simp [logger_task, h, ht]⟩
      · exact ⟨r :: rest, by simp [logger_task, h]⟩
  · intro h
    simp [logger_task_all_ok wr q h]

/-- Instantiation of C3 on a concrete queue with all writes succeeding. -/
theorem C3_fifo_delivery_witness :
    (logger_task (fun _ => true) [sampleRecord 1, sampleRecord 2]).written
      = [sampleRecord 1, sampleRecord 2] :=
  (C3_fifo_delivery (fun _ => true) [sampleRecord 1, sampleRecord 2]).2
    (fun _ => rfl)

/-- C4: the sink adapter's `log` never returns an error to its caller (its
result type has no error component).  A record rejected by the filter is
dropped with no queue interaction and no diagnostic; an accepted record
causes exactly one queue-insertion attempt, which on an open queue enqueues
the converted record silently and on a closed queue enqueues nothing and
prints exactly one stderr diagnostic, still returning normally. -/
theorem C4_log_error_policy (channelOpen : Bool) (r : LogRecord) :
    (ConsoleLogger.enabled r.metadata = false →
        ConsoleLogger.log channelOpen r
          = { sendAttempts := 0, enqueued := none, diagLines := 0 }) ∧
    (ConsoleLogger.enabled r.metadata = true →
        (ConsoleLogger.log channelOpen r).sendAttempts = 1 ∧
        (channelOpen = true →
            ConsoleLogger.log channelOpen r
              = { sendAttempts := 1, enqueued := some (recordOf r), diagLines := 0 }) ∧
        (channelOpen = false →
            ConsoleLogger.log channelOpen r
              = { sendAttempts := 1, enqueued := none, diagLines := 1 })) := by
  constructor
  · intro h
    simp [ConsoleLogger.log, h]
  · intro h
    refine ⟨?_, ?_, ?_⟩ <;> cases channelOpen <;>
      simp [ConsoleLogger.log, h]

/-- Instantiation of C4: a mirrord-origin record on a closed queue is
swallowed with one diagnostic; a foreign-origin record is dropped without
touching the queue. -/
theorem C4_log_error_policy_witness :
    ConsoleLogger.log false sampleLogRecord
      = { sendAttempts := 1, enqueued := none, diagLines := 1 } ∧
    ConsoleLogger.log true otherLogRecord
      = { sendAttempts := 0, enqueued := none, diagLines := 0 } :=
  ⟨((C4_log_error_policy false sampleLogRecord).2 (by decide)).2.2 rfl,
   (C4_log_error_policy true otherLogRecord).1 (by decide)⟩

/-- C7: when the n-th write fails in the delivery loop (all earlier writes
having succeeded), the loop prints exactly one diagnostic and terminates:
only the records before the failure were written, the failed record was
attempted exactly once (no retry), and nothing after it is ever attempted
or written. -/
theorem C7_write_failure_terminates (wr : Nat → Bool) (q : List Record)
    (k : Nat) (hok : ∀ i, i < k → wr i = true) (hfail : wr k = false)
    (hk : k < q.length) :
    (logger_task wr q).exit = .writeError ∧
    (logger_task wr q).diagErrors = 1 ∧
    (logger_task wr q).written = q.take k ∧
    (logger_task wr q).attempted = q.take (k + 1) := by
  induction q generalizing wr k with
  | nil => simp at hk
  | cons r rest ih =>
    cases k with
    | zero =>
      simp [logger_task, hfail]
    | succ k' =>
      have h0 : wr 0 = true := hok 0 (Nat.succ_pos k')
      have hrec := ih (fun i => wr (i + 1)) k'
        (fun i hi => hok (i + 1) (Nat.succ_lt_succ hi)) hfail
        (Nat.lt_of_succ_lt_succ hk)
      simp [logger_task, h0, hrec.1, hrec.2.1, hrec.2.2.1, hrec.2.2.2]

/-- Instantiation of C7: the second write fails on a three-record queue. -/
theorem C7_write_failure_terminates_witness :
    (logger_task (fun i => i == 0) [sampleRecord 1, sampleRecord 2, sampleRecord 3]).exit
        = .writeError ∧
    (logger_task (fun i => i == 0) [sampleRecord 1, sampleRecord 2, sampleRecord 3]).diagErrors
        = 1 ∧
    (logger_task (fun i => i == 0) [sampleRecord 1, sampleRecord 2, sampleRecord 3]).written
        = [sampleRecord 1, sampleRecord 2, sampleRecord 3].take 1 ∧
    (logger_task (fun i => i == 0) [sampleRecord 1, sampleRecord 2, sampleRecord 3]).attempted
        = [sampleRecord 1, sampleRecord 2, sampleRecord 3].take 2 :=
  C7_write_failure_terminates (fun i => i == 0)
    [sampleRecord 1, sampleRecord 2, sampleRecord 3] 1
    (fun i hi => by
      have : i = 0 := by omega
      subst this
      rfl)
    rfl (by decide)

/-- C8: when the queue's producing side is torn down, the delivery loop
first drains and writes every record still buffered (all writes succeeding)
and only then exits cleanly, with no diagnostic and no discarded record. -/
theorem C8_drain_then_clean_exit (wr : Nat → Bool) (q : List Record)
    (h : ∀ i, wr i = true) :
    (logger_task wr q).exit = .queueClosed ∧
    (logger_task wr q).written = q ∧
    (logger_task wr q).diagErrors = 0 := by
  simp [logger_task_all_ok wr q h]

/-- Instantiation of C8 on a concrete buffered queue. -/
theorem C8_drain_then_clean_exit_witness :
    (logger_task (fun _ => true) [sampleRecord 4, sampleRecord 5]).exit
        = .queueClosed ∧
    (logger_task (fun _ => true) [sampleRecord 4, sampleRecord 5]).written
        = [sampleRecord 4, sampleRecord 5] ∧
    (logger_task (fun _ => true) [sampleRecord 4, sampleRecord 5]).diagErrors = 0 :=
  C8_drain_then_clean_exit (fun _ => true) [sampleRecord 4, sampleRecord 5]
    (fun _ => rfl)

/-- C2: on every connection `init_logger` establishes (connect and handshake
write both succeeding), the session descriptor built from the process
snapshot is the first frame on the wire, it appears exactly once, and every
later frame is a record — so no record precedes it.  In the source the
handshake write happens synchronously, before the delivery loop is spawned
(logger.rs line 89 before line 90) and before `init_logger` returns. -/
theorem C2_hello_first_exactly_once (env : InitEnv) (st : LogGlobalState)
    (newLogger : Nat) (address : String)
    (hc : env.connectResult (wsUrl address) = none)
    (hw : env.helloWriteResult = none) :
    ∃ rs : List Record,
      (init_logger env st newLogger address).trace
        = Msg.hello (helloOf env.proc) :: rs.map Msg.record ∧
      (init_logger env st newLogger address).trace.countP Msg.isHello = 1 := by
  have htr : (init_logger env st newLogger address).trace
      = Msg.hello (helloOf env.proc)
        :: (logger_task env.wr env.queue).written.map Msg.record := by
    cases hst : st.logger <;>
      simp [init_logger, hc, send_hello, hw, set_boxed_logger, hst]
  refine ⟨(logger_task env.wr env.queue).written, htr, ?_⟩
  rw [htr]
  simp [List.countP_cons, List.countP_map, Msg.isHello, Function.comp_def,
    List.countP_eq_zero]

/-- Instantiation of C2 on a fully successful run. -/
theorem C2_hello_first_exactly_once_witness :
    ∃ rs : List Record,
      (init_logger sampleEnv { logger := none, maxLevel := .Off } 1 "127.0.0.1:11233").trace
        = Msg.hello (helloOf sampleEnv.proc) :: rs.map Msg.record ∧
      (init_logger sampleEnv { logger := none, maxLevel := .Off } 1 "127.0.0.1:11233").trace.countP
          Msg.isHello = 1 :=
  C2_hello_first_exactly_once sampleEnv { logger := none, maxLevel := .Off }
    1 "127.0.0.1:11233" rfl rfl

/-- C5: the hand-off queue is created with the fixed bound 10000 (the bound
`init_logger` reports is that constant), and the queue behaves as a strict
bounded buffer: the buffered count never exceeds the capacity in any
reachable state, a send step is enabled (appending the record — not
dropping it, not erroring) exactly while the buffer is below capacity, at
capacity every enabled step strictly shrinks the buffer (so a producer can
only block), and once the delivery loop removes an item the send step is
enabled again. -/
theorem C5_bounded_blocking_queue :
    init_channel_bound = 10000 ∧
    (∀ (env : InitEnv) (st : LogGlobalState) (newLogger : Nat) (address : String),
        (init_logger env st newLogger address).queueBound = init_channel_bound) ∧
    (∀ q : SyncChannel, ChanReachable (sync_channel init_channel_bound) q →
        q.buf.length ≤ q.cap) ∧
    (∀ (q : SyncChannel) (r : Record), q.buf.length < q.cap →
        ChanStep q { q with buf := q.buf ++ [r] }) ∧
    (∀ q q' : SyncChannel, q.buf.length = q.cap → ChanStep q q' →
        q'.buf.length < q.buf.length) ∧
    (∀ (q : SyncChannel) (r : Record) (rest : List Record),
        q.buf = r :: rest → q.buf.length = q.cap →
        ChanStep q { q with buf := rest } ∧
        ∀ r' : Record,
          ChanStep { q with buf := rest } { q with buf := rest ++ [r'] }) := by
  refine ⟨rfl, ?_, ?_, ?_, ?_, ?_⟩
  · intro env st newLogger address
    cases hc : env.connectResult (wsUrl address) <;>
      cases hw : env.helloWriteResult <;>
      cases hst : st.logger <;>
      simp [init_logger, hc, send_hello, hw, set_boxed_logger, hst]
  · intro q h
    induction h with
    | refl => simp [sync_channel]
    | tail hsteps step ih =>
      cases step with
      | send r hlt =>
        simpa using hlt
      | recv r rest hbuf =>
        rw [hbuf] at ih
        simp at ih ⊢
        omega
  · intro q r hlt
    exact ChanStep.send q r hlt
  · intro q q' hfull step
    cases step with
    | send r hlt => omega
    | recv r rest hbuf => simp [hbuf]
  · intro q r rest hbuf hfull
    refine ⟨ChanStep.recv q r rest hbuf, fun r' => ?_⟩
    have hlen : rest.length < q.cap := by
      rw [hbuf] at hfull
      simp at hfull
      omega
    exact ChanStep.send { q with buf := rest } r' hlen

/-- Instantiation of C5: the initial queue satisfies the bound invariant, a
non-full queue accepts a send, and a full queue unblocks after one
removal. -/
theorem C5_bounded_blocking_queue_witness :
    init_channel_bound = 10000 ∧
    (sync_channel init_channel_bound).buf.length ≤ (sync_channel init_channel_bound).cap ∧
    ChanStep (sync_channel 2)
      { sync_channel 2 with buf := (sync_channel 2).buf ++ [sampleRecord 1] } ∧
    ChanStep fullChan { fullChan with buf := [sampleRecord 2] } ∧
    ({ fullChan with buf := [sampleRecord 2] } : SyncChannel).buf.length
        < fullChan.buf.length :=
  have hstep := (C5_bounded_blocking_queue.2.2.2.2.2 fullChan (sampleRecord 1)
    [sampleRecord 2] rfl rfl).1
  ⟨C5_bounded_blocking_queue.1,
   C5_bounded_blocking_queue.2.2.1 (sync_channel init_channel_bound)
     Relation.ReflTransGen.refl,
   C5_bounded_blocking_queue.2.2.2.1 (sync_channel 2) (sampleRecord 1)
     (by decide),
   hstep,
   C5_bounded_blocking_queue.2.2.2.2.1 fullChan _ rfl hstep⟩

/-- C6: if `connect` fails, or the synchronous handshake write fails,
`init_logger` returns the connect-error kind carrying the underlying
transport error, nothing is written on the wire, and the process-wide
logger state is left untouched (in particular no logging target is
installed). -/
theorem C6_init_fail_fast (env : InitEnv) (st : LogGlobalState)
    (newLogger : Nat) (address : String) (e : WsError) :
    (env.connectResult (wsUrl address) = some e →
        (init_logger env st newLogger address).result
            = .error (.ConnectError e) ∧
        (init_logger env st newLogger address).state = st ∧
        (init_logger env st newLogger address).trace = []) ∧
    (env.connectResult (wsUrl address) = none →
      env.helloWriteResult = some e →
        (init_logger env st newLogger address).result
            = .error (.ConnectError e) ∧
        (init_logger env st newLogger address).state = st ∧
        (init_logger env st newLogger address).trace = []) := by
  constructor
  · intro hc
    simp [init_logger, hc]
  · intro hc hw
    simp [init_logger, hc, send_hello, hw]

/-- Instantiation of C6: a refused connection and a failed handshake
write. -/
theorem C6_init_fail_fast_witness :
    ((init_logger refusedEnv { logger := none, maxLevel := .Off } 1 "addr").result
        = .error (.ConnectError { msg := "connection refused" }) ∧
     (init_logger refusedEnv { logger := none, maxLevel := .Off } 1 "addr").state
        = { logger := none, maxLevel := .Off } ∧
     (init_logger refusedEnv { logger := none, maxLevel := .Off } 1 "addr").trace = []) ∧
    ((init_logger helloFailEnv { logger := none, maxLevel := .Off } 1 "addr").result
        = .error (.ConnectError { msg := "broken pipe" }) ∧
     (init_logger helloFailEnv { logger := none, maxLevel := .Off } 1 "addr").state
        = { logger := none, maxLevel := .Off } ∧
     (init_logger helloFailEnv { logger := none, maxLevel := .Off } 1 "addr").trace = []) :=
  ⟨(C6_init_fail_fast refusedEnv { logger := none, maxLevel := .Off } 1 "addr"
      { msg := "connection refused" }).1 rfl,
   (C6_init_fail_fast helloFailEnv { logger := none, maxLevel := .Off } 1 "addr"
      { msg := "broken pipe" }).2 rfl rfl⟩

/-- C9: when a process-wide logging target is already installed, the
installed target survives any `init_logger` call unchanged (never silently
overwritten), and a call that gets as far as the installation step (connect
and handshake both succeeding) returns the set-logger error with the global
state untouched. -/
theorem C9_second_init_set_logger_error (env : InitEnv) (st : LogGlobalState)
    (newLogger : Nat) (address : String) (j : Nat)
    (hj : st.logger = some j) :
    (init_logger env st newLogger address).state.logger = some j ∧
    (env.connectResult (wsUrl address) = none →
      env.helloWriteResult = none →
        (init_logger env st newLogger address).result = .error .SetLoggerError ∧
        (init_logger env st newLogger address).state = st) := by
  refine ⟨?_, ?_⟩
  · cases hc : env.connectResult (wsUrl address) <;>
      cases hw : env.helloWriteResult <;>
      simp [init_logger, hc, send_hello, hw, set_boxed_logger, hj]
  · intro hc hw
    simp [init_logger, hc, send_hello, hw, set_boxed_logger, hj]

/-- Instantiation of C9: a second initialization against an already
installed logger. -/
theorem C9_second_init_set_logger_error_witness :
    (init_logger sampleEnv { logger := some 5, maxLevel := .Trace } 6 "addr").state.logger
        = some 5 ∧
    (init_logger sampleEnv { logger := some 5, maxLevel := .Trace } 6 "addr").result
        = .error .SetLoggerError :=
  ⟨(C9_second_init_set_logger_error sampleEnv
      { logger := some 5, maxLevel := .Trace } 6 "addr" 5 rfl).1,
   ((C9_second_init_set_logger_error sampleEnv
      { logger := some 5, maxLevel := .Trace } 6 "addr" 5 rfl).2 rfl rfl).1⟩

/-- A successful string-list rendering: sequences of strings always render. -/
theorem listToJson_strs_ok (xs : List String) :
    (SerValue.listToJson (xs.map SerValue.str)).isOk = true := by
  induction xs with
  | nil => rfl
  | cons x xs ih =>
    rcases hrec : SerValue.listToJson (xs.map SerValue.str) with e | rs
    · rw [hrec] at ih
      simp [Except.isOk, Except.toBool] at ih
    · simp [SerValue.listToJson, SerValue.toJson, hrec, except_ok_bind,
        Except.isOk, Except.toBool]

/-- An empty field list renders. -/
theorem fieldsToJson_nil_ok : (SerValue.fieldsToJson []).isOk = true := rfl

/-- A field with a string key and a renderable value, prepended to a
renderable field list, still renders. -/
theorem fieldsToJson_cons_ok (k : String) (v : SerValue)
    (fs : List (SerValue × SerValue))
    (hv : (SerValue.toJson v).isOk = true)
    (hfs : (SerValue.fieldsToJson fs).isOk = true) :
    (SerValue.fieldsToJson ((SerValue.str k, v) :: fs)).isOk = true := by
  rcases h1 : SerValue.toJson v with e | r
  · rw [h1] at hv
    simp [Except.isOk, Except.toBool] at hv
  · rcases h2 : SerValue.fieldsToJson fs with e | rs
    · rw [h2] at hfs
      simp [Except.isOk, Except.toBool] at hfs
    · simp [SerValue.fieldsToJson, h1, h2, except_ok_bind, Except.isOk,
        Except.toBool]

/-- A map whose field list renders, renders. -/
theorem toJson_obj_ok (fs : List (SerValue × SerValue))
    (h : (SerValue.fieldsToJson fs).isOk = true) :
    (SerValue.toJson (.obj fs)).isOk = true := by
  rcases h2 : SerValue.fieldsToJson fs with e | rs
  · rw [h2] at h
    simp [Except.isOk, Except.toBool] at h
  · simp [SerValue.toJson, h2, except_ok_bind, Except.isOk, Except.toBool]

/-- A sequence of strings renders. -/
theorem toJson_arr_strs_ok (xs : List String) :
    (SerValue.toJson (.arr (xs.map SerValue.str))).isOk = true := by
  rcases h : SerValue.listToJson (xs.map SerValue.str) with e | rs
  · have := listToJson_strs_ok xs
    rw [h] at this
    simp [Except.isOk, Except.toBool] at this
  · simp [SerValue.toJson, h, except_ok_bind, Except.isOk, Except.toBool]

/-- An optional string field renders. -/
theorem toJson_optStr_ok (o : Option String) :
    (SerValue.toJson (serializeOptStr o)).isOk = true := by
  cases o <;> rfl

/-- A level renders. -/
theorem toJson_level_ok (l : Level) :
    (SerValue.toJson l.serialize).isOk = true := by
  cases l <;> rfl

/-- C10: the serialization performed at the two unwrap sites cannot fail:
for every record the delivery loop sends and every hello `send_hello`
builds, the `serde_json` rendering of its serde encoding succeeds (the only
failure mode of JSON rendering, a non-string map key, never arises), so the
failure branch of the unguarded `unwrap` in `send_hello` (line 65) and in
`logger_task` (line 74) is unreachable and serialization never aborts the
host process. -/
theorem C10_serialization_never_fails :
    (∀ r : Record, (SerValue.toJson r.serialize).isOk = true) ∧
    (∀ h : Hello, (SerValue.toJson h.serialize).isOk = true) := by
  constructor
  · intro r
    apply toJson_obj_ok
    apply fieldsToJson_cons_ok
    · apply toJson_obj_ok
      apply fieldsToJson_cons_ok
      · exact toJson_level_ok r.metadata.level
      apply fieldsToJson_cons_ok
      · rfl
      exact fieldsToJson_nil_ok
    apply fieldsToJson_cons_ok
    · rfl
    apply fieldsToJson_cons_ok
    · exact toJson_optStr_ok r.module_path
    apply fieldsToJson_cons_ok
    · exact toJson_optStr_ok r.file
    apply fieldsToJson_cons_ok
    · cases r.line <;> rfl
    exact fieldsToJson_nil_ok
  · intro h
    apply toJson_obj_ok
    apply fieldsToJson_cons_ok
    · apply toJson_obj_ok
      apply fieldsToJson_cons_ok
      · exact toJson_arr_strs_ok h.process_info.args
      apply fieldsToJson_cons_ok
      · exact toJson_arr_strs_ok h.process_info.env
      apply fieldsToJson_cons_ok
      · exact toJson_optStr_ok h.process_info.cwd
      apply fieldsToJson_cons_ok
      · rfl
      exact fieldsToJson_nil_ok
    exact fieldsToJson_nil_ok

end MirrordConsole

